import Mathlib

set_option maxRecDepth 4000

/-!
Verification of the retina RTSP client library (claims over a shallow
embedding of `src/lib.rs`, `src/codec/simple_audio.rs` and
`examples/client/main.rs`).

Machine integers are modelled as `Nat`/`Int` with explicit range bounds;
fallible Rust code returns `Option`/`Except`; Rust panics (`assert!`,
division by zero) are modelled by an explicit `Panics` wrapper.
-/

namespace Retina

/-- Byte strings (`bytes::Bytes`) are modelled as lists of byte values. -/
abbrev Bytes := List Nat

/-- Smallest `i64` value. -/
def i64min : Int := -(2 ^ 63)

/-- Largest `i64` value. -/
def i64max : Int := 2 ^ 63 - 1

/-- Rust `i64::checked_sub`: `none` exactly when the mathematical difference
leaves the `i64` range. -/
def checked_sub (a b : Int) : Option Int :=
  if i64min ≤ a - b ∧ a - b ≤ i64max then some (a - b) else none

/-- Rust `i64::checked_add`: `none` exactly when the mathematical sum leaves
the `i64` range. -/
def checked_add (a b : Int) : Option Int :=
  if i64min ≤ a + b ∧ a + b ≤ i64max then some (a + b) else none

/-- `Timestamp` from `src/lib.rs`: extended RTP timestamp (`i64` as `Int`),
codec clock rate (`NonZeroU32` as `Nat`, nonzeroness carried as a hypothesis),
and stream start (`u32` as `Nat`). -/
structure Timestamp where
  timestamp : Int
  clock_rate : Nat
  start : Nat
deriving DecidableEq, Repr

/-- `Timestamp::new` from `src/lib.rs` lines 79-86: creates a timestamp unless
`timestamp - start` underflows (`checked_sub` fails). -/
def Timestamp.new (timestamp : Int) (clock_rate : Nat) (start : Nat) :
    Option Timestamp :=
  (checked_sub timestamp (start : Int)).map fun _ =>
    { timestamp := timestamp, clock_rate := clock_rate, start := start }

/-- `Timestamp::elapsed`: elapsed time since stream start in clock-rate units. -/
def Timestamp.elapsed (t : Timestamp) : Int :=
  t.timestamp - (t.start : Int)

/-- `Timestamp::elapsed_secs`: NPT in seconds. The Rust code divides as `f64`;
the double-precision rounding is abstracted as exact rational division. -/
def Timestamp.elapsed_secs (t : Timestamp) : ℚ :=
  (t.elapsed : ℚ) / (t.clock_rate : ℚ)

/-- `Timestamp::try_add` from `src/lib.rs` lines 119-130: returns
`self + delta` unless the `i64` addition overflows. -/
def Timestamp.try_add (t : Timestamp) (delta : Nat) : Option Timestamp :=
  (checked_add t.timestamp ((delta : Int))).map fun ts =>
    { timestamp := ts, clock_rate := t.clock_rate, start := t.start }

/-- The documented invariants of a `Timestamp` value: the clock rate is a
nonzero `u32`, the start is a `u32`, the extended timestamp is a valid `i64`,
and `timestamp - start` does not underflow `i64`. -/
abbrev Timestamp.wf (t : Timestamp) : Prop :=
  0 < t.clock_rate ∧ t.clock_rate < 2 ^ 32 ∧ t.start < 2 ^ 32 ∧
    i64min ≤ t.timestamp ∧ t.timestamp ≤ i64max ∧
    i64min ≤ t.timestamp - (t.start : Int)

/-! Contexts (`src/lib.rs`). These are diagnostic payloads carried through
the pipeline unchanged; wall/monotonic clock readings are opaque numbers. -/

/-- `WallTime` wraps a `time::Timespec` (seconds, nanoseconds). -/
structure WallTime where
  sec : Int
  nsec : Int
deriving DecidableEq, Repr

/-- A socket address: IP (opaque number) and port. -/
structure SocketAddr where
  ip : Nat
  port : Nat
deriving DecidableEq, Repr

/-- `RtspMessageContext` from `src/lib.rs`: byte position plus receive times
(the monotonic `Instant` is an opaque number). -/
structure RtspMessageContext where
  pos : Nat
  received_wall : WallTime
  received : Nat
deriving DecidableEq, Repr

/-- `PacketContextInner` from `src/lib.rs` lines 304-317. -/
inductive PacketContextInner where
  | tcp (msg_ctx : RtspMessageContext) (channel_id : Nat)
  | udp (local_addr peer_addr : SocketAddr) (received_wall : WallTime)
      (received : Nat)
  | dummy
deriving DecidableEq, Repr

/-- `PacketContext` from `src/lib.rs` line 295. -/
structure PacketContext where
  inner : PacketContextInner
deriving DecidableEq, Repr

/-- Modelled from the spec: `crate::client::rtp::Packet` is not under `src/`
(only its consumer `simple_audio.rs` is). Per the spec's data model a packet
carries stream id, packet context, SSRC, sequence number, mark bit, extended
timestamp, payload bytes and a loss count; `simple_audio.rs` reads `payload`,
`loss`, `ctx`, `stream_id` and `timestamp`. -/
structure Packet where
  ctx : PacketContext
  stream_id : Nat
  timestamp : Timestamp
  ssrc : Nat
  sequence_number : Nat
  mark : Bool
  payload : Bytes
  loss : Nat
deriving DecidableEq, Repr

/-- `AudioFrame` as constructed in `src/codec/simple_audio.rs` lines 60-67
(the type itself lives in the codec module root, not under `src/`; its fields
are fixed by that construction site and the spec's data model).
`frame_length` is a `NonZeroU32`, modelled as `Nat` whose nonzeroness is
enforced by `NonZeroU32.new` at the only construction site. -/
structure AudioFrame where
  loss : Nat
  ctx : PacketContext
  stream_id : Nat
  timestamp : Timestamp
  frame_length : Nat
  data : Bytes
deriving DecidableEq, Repr

/-- Modelled from the spec: `CodecItem` is a tagged variant
`{VideoFrame, AudioFrame, MessageLayer, Rtcp, SenderReport}`; only the
`AudioFrame` arm is exercised by the code under `src/`. -/
inductive CodecItem where
  | AudioFrame (frame : AudioFrame)
  | VideoFrame
  | MessageLayer
  | Rtcp
  | SenderReport
deriving DecidableEq, Repr

/-- `AudioParameters` as constructed in `src/codec/simple_audio.rs`
lines 31-37. -/
structure AudioParameters where
  rfc6381_codec : Option String
  frame_length : Option Nat
  clock_rate : Nat
  extra_data : Bytes
  sample_entry : Option Bytes
deriving DecidableEq, Repr

/-- Modelled from the spec: `Parameters` is a tagged variant over per-kind
parameter records; `simple_audio.rs` builds only the `Audio` arm. -/
inductive Parameters where
  | Audio (params : AudioParameters)
  | Video
  | Message
deriving DecidableEq, Repr

/-- Outcome of Rust code that may panic (`assert!`, `%`/`/` by zero). -/
inductive Panics (α : Type) where
  | panicked
  | value (a : α)
deriving DecidableEq, Repr

/-- `NonZeroU32::new`: `none` exactly on zero. -/
def NonZeroU32.new (n : Nat) : Option Nat :=
  if n = 0 then none else some n

/-- The fixed-size audio `Depacketizer` from `src/codec/simple_audio.rs`. -/
structure Depacketizer where
  clock_rate : Nat
  pending : Option AudioFrame
  bits_per_sample : Nat
deriving DecidableEq, Repr

/-- `Depacketizer::new` (`simple_audio.rs` lines 22-28). -/
def Depacketizer.new (clock_rate bits_per_sample : Nat) : Depacketizer :=
  { clock_rate := clock_rate, bits_per_sample := bits_per_sample,
    pending := none }

/-- `Depacketizer::parameters` (`simple_audio.rs` lines 30-38): always `Some`,
with `frame_length = None` (variable) and the construction-time clock rate. -/
def Depacketizer.parameters (d : Depacketizer) : Option Parameters :=
  some (.Audio { rfc6381_codec := none, frame_length := none,
                 clock_rate := d.clock_rate, extra_data := [],
                 sample_entry := none })

/-- `Depacketizer::frame_length` (`simple_audio.rs` lines 40-49):
`assert!(payload_len < 65535)` panics on oversized payloads; `%` by a zero
`bits_per_sample` would also panic; otherwise `None` when `payload_len * 8`
is not a multiple of `bits_per_sample`, else `NonZeroU32::new` of the
quotient (so `None` again when the quotient is zero). -/
def Depacketizer.frame_length (d : Depacketizer) (payload_len : Nat) :
    Panics (Option Nat) :=
  if payload_len < 65535 then
    if d.bits_per_sample = 0 then .panicked
    else
      let bits := payload_len * 8
      if bits % d.bits_per_sample ≠ 0 then .value none
      else .value (NonZeroU32.new (bits / d.bits_per_sample))
  else .panicked

/-- `Depacketizer::push` (`simple_audio.rs` lines 51-69):
`assert!(self.pending.is_none())` panics when an item is already pending;
a `None` frame length becomes the descriptive error string; on success the
pending frame takes all its fields from the packet. -/
def Depacketizer.push (d : Depacketizer) (pkt : Packet) :
    Panics (Except String Depacketizer) :=
  if d.pending.isSome then .panicked
  else
    match d.frame_length pkt.payload.length with
    | .panicked => .panicked
    | .value none =>
        .value (.error ("invalid length " ++ toString pkt.payload.length ++
          " for payload of " ++ toString d.bits_per_sample ++
          "-bit audio samples"))
    | .value (some fl) =>
        let frame : AudioFrame :=
          { loss := pkt.loss, ctx := pkt.ctx, stream_id := pkt.stream_id,
            timestamp := pkt.timestamp, frame_length := fl,
            data := pkt.payload }
        .value (.ok { d with pending := some frame })

/-- `Depacketizer::pull` (`simple_audio.rs` lines 71-73): takes the pending
frame, leaving none behind. -/
def Depacketizer.pull (d : Depacketizer) : Option CodecItem × Depacketizer :=
  (d.pending.map CodecItem.AudioFrame, { d with pending := none })

/-- True exactly when a push returned `Ok`. -/
def pushOk : Panics (Except String Depacketizer) → Bool
  | .value (.ok _) => true
  | _ => false

/-- True exactly when a push returned a descriptive error value. -/
def pushErrValue : Panics (Except String Depacketizer) → Bool
  | .value (.error _) => true
  | _ => false

/-! `UdpPair` (`src/lib.rs` lines 362-421). The OS socket table is modelled
by an environment `bind : Nat → BindOutcome` giving each port's bind
outcome, and the random generator by its stream of draws `rng : Nat → Nat`
(the i-th call to `rng.gen_range(5000..65000)`). -/

/-- Outcome of `UdpSocket::bind` on a port: success, `AddrInUse`, or an
error of any other kind. -/
inductive BindOutcome where
  | ok
  | addrInUse
  | otherErr
deriving DecidableEq, Repr

/-- The two ports of a successfully allocated `UdpPair` (each port is bound
exactly when the allocation returned it). -/
structure UdpPairPorts where
  rtp_port : Nat
  rtcp_port : Nat
deriving DecidableEq, Repr

/-- Result of `UdpPair::for_ip`: a bound pair, the final `AddrInUse` error
after exhausting the tries, or an immediately propagated error of another
kind. -/
inductive ForIpResult where
  | ok (pair : UdpPairPorts)
  | errAddrInUse
  | errOther
deriving DecidableEq, Repr

/-- The `for i in 0..MAX_TRIES` loop of `UdpPair::for_ip`, instrumented with
the number of loop iterations executed. Each iteration draws a port, clears
its low bit (`& !0b1`, i.e. `&&& 65534` on `u16`), binds RTP, then RTCP on
port+1; `AddrInUse` on either bind continues the loop (dropping any RTP
socket bound in that iteration), any other bind error returns immediately. -/
def for_ip_aux (bind : Nat → BindOutcome) (rng : Nat → Nat) :
    Nat → Nat → ForIpResult × Nat
  | _, 0 => (.errAddrInUse, 0)
  | i, fuel + 1 =>
    let rtp_port := rng i &&& 65534
    match bind rtp_port with
    | .otherErr => (.errOther, 1)
    | .addrInUse =>
        let r := for_ip_aux bind rng (i + 1) fuel
        (r.1, r.2 + 1)
    | .ok =>
        match bind (rtp_port + 1) with
        | .otherErr => (.errOther, 1)
        | .addrInUse =>
            let r := for_ip_aux bind rng (i + 1) fuel
            (r.1, r.2 + 1)
        | .ok => (.ok ⟨rtp_port, rtp_port + 1⟩, 1)

/-- `UdpPair::for_ip` (`src/lib.rs` lines 372-420) with `MAX_TRIES = 10`:
the allocation result together with the number of attempts made. -/
def UdpPair.for_ip (bind : Nat → BindOutcome) (rng : Nat → Nat) :
    ForIpResult × Nat :=
  for_ip_aux bind rng 0 10

/-! The example CLI (`examples/client/main.rs` lines 49-60). -/

/-- Observable outcome of the example CLI process: exit status and the fatal
message printed to stderr, if any. -/
structure CliOutcome where
  exit_code : Nat
  stderr : Option String
deriving DecidableEq, Repr

/-- `main` from `examples/client/main.rs` lines 49-60, as a function of
`main_inner`'s result. An `anyhow` error is modelled by its chain of causes
(`e.chain()`, the error itself first). On error the process logs
`Fatal: ` followed by the chain joined with `itertools::join(_, "\ncaused
by: ")` and exits with status 1; on success it logs `Done` and main returns,
exiting with status 0. -/
def cli_main (result : Except (List String) Unit) : CliOutcome :=
  match result with
  | .error chain =>
      { exit_code := 1,
        stderr := some ("Fatal: " ++
          String.intercalate "\ncaused by: " chain) }
  | .ok _ => { exit_code := 0, stderr := none }

/-! Operation sequences over the depacketizer, for frame-effect claims. -/

/-- One caller-visible depacketizer operation. -/
inductive DepacketizerOp where
  | push (pkt : Packet)
  | pull

/-- State evolution of the depacketizer under one operation: a failed or
panicking `push` leaves the state unchanged (`push` mutates `self.pending`
only after `frame_length` succeeds). -/
def Depacketizer.applyOp (d : Depacketizer) : DepacketizerOp → Depacketizer
  | .push pkt =>
      match d.push pkt with
      | .value (.ok d') => d'
      | _ => d
  | .pull => (d.pull).2

/-- State after a sequence of operations. -/
def Depacketizer.applyOps (d : Depacketizer) (ops : List DepacketizerOp) :
    Depacketizer :=
  ops.foldl Depacketizer.applyOp d

/-! Concrete fixtures for witnesses and counterexamples. -/

/-- A dummy packet context (`PacketContext::dummy`). -/
def dummyCtx : PacketContext := ⟨.dummy⟩

/-- A concrete timestamp value for packet fixtures. -/
def ts16k : Timestamp := { timestamp := 320000, clock_rate := 16000, start := 0 }

/-- Builds a packet around a payload with fixed metadata. -/
def mkPacket (payload : Bytes) : Packet :=
  { ctx := dummyCtx, stream_id := 0, timestamp := ts16k, ssrc := 0,
    sequence_number := 0, mark := false, payload := payload, loss := 0 }

/-- Packet with an empty payload. -/
def pktEmpty : Packet := mkPacket []

/-- Packet with a 320-byte payload (the spec's 16-bit audio example). -/
def pkt320 : Packet := mkPacket (List.replicate 320 0)

/-- Packet with a 65535-byte payload (at the `assert!` bound). -/
def pkt65535 : Packet := mkPacket (List.replicate 65535 0)

/-- Packet with a two-byte payload. -/
def pktTwo : Packet := mkPacket [1, 2]

/-- The audio frame `push` pends for a packet, given the computed frame
length (the structure literal of `simple_audio.rs` lines 60-67). -/
def mkFrame (pkt : Packet) (fl : Nat) : AudioFrame :=
  { loss := pkt.loss, ctx := pkt.ctx, stream_id := pkt.stream_id,
    timestamp := pkt.timestamp, frame_length := fl, data := pkt.payload }

/-- The audio frame produced for `pkt320` by a 16-bit depacketizer:
320 bytes of 16-bit samples make 160 sample ticks. -/
def frame320 : AudioFrame :=
  { loss := 0, ctx := dummyCtx, stream_id := 0, timestamp := ts16k,
    frame_length := 160, data := List.replicate 320 0 }

/-- The depacketizer state after pushing `pkt320` into
`Depacketizer.new 16000 16`. -/
def d320 : Depacketizer :=
  { clock_rate := 16000, pending := some frame320, bits_per_sample := 16 }

/-- The audio frame produced for `pktTwo` by an 8-bit depacketizer. -/
def frameTwo : AudioFrame :=
  { loss := 0, ctx := dummyCtx, stream_id := 0, timestamp := ts16k,
    frame_length := 2, data := [1, 2] }

/-- The depacketizer state after pushing `pktTwo` into
`Depacketizer.new 8000 8`. -/
def dTwo : Depacketizer :=
  { clock_rate := 8000, pending := some frameTwo, bits_per_sample := 8 }

/-! Helper lemmas. -/

/-- Clearing the low bit of a 16-bit value: `d &&& 65534 = 2 * (d / 2)`. -/
theorem land_65534_eq {d : Nat} (hd : d < 65536) :
    d &&& 65534 = 2 * (d / 2) := by
  apply Nat.eq_of_testBit_eq
  intro i
  rw [Nat.testBit_and]
  match i with
  | 0 =>
      simp [Nat.testBit_zero, Nat.mul_mod_right]
  | i + 1 =>
      have h2 : (65534 : Nat) = 2 * (2 ^ 15 - 1) := by norm_num
      rw [h2, Nat.testBit_add_one, Nat.testBit_add_one, Nat.testBit_add_one,
        Nat.mul_div_cancel_left _ (by norm_num : 0 < 2),
        Nat.mul_div_cancel_left _ (by norm_num : 0 < 2),
        Nat.testBit_two_pow_sub_one]
      by_cases hi : i < 15
      · simp [hi]
      · have hfalse : (d / 2).testBit i = false := by
          apply Nat.testBit_lt_two_pow
          have hdle : d / 2 < 2 ^ 15 := by omega
          calc d / 2 < 2 ^ 15 := hdle
            _ ≤ 2 ^ i := Nat.pow_le_pow_right (by norm_num) (by omega)
        simp [hfalse]

/-- Any pair returned by the allocation loop has an even RTP port drawn from
[5000, 65000), an RTCP port exactly one above it, and both ports bound. -/
theorem for_ip_aux_ok (bind : Nat → BindOutcome) (rng : Nat → Nat)
    (hrng : ∀ i, 5000 ≤ rng i ∧ rng i < 65000) :
    ∀ fuel i p, (for_ip_aux bind rng i fuel).1 = .ok p →
      p.rtp_port % 2 = 0 ∧ 5000 ≤ p.rtp_port ∧ p.rtp_port < 65000 ∧
      p.rtcp_port = p.rtp_port + 1 ∧
      bind p.rtp_port = .ok ∧ bind p.rtcp_port = .ok := by
  intro fuel
  induction fuel with
  | zero =>
      intro i p h
      simp [for_ip_aux] at h
  | succ n ih =>
      intro i p h
      simp only [for_ip_aux] at h
      cases hb : bind (rng i &&& 65534) with
      | otherErr => rw [hb] at h; simp at h
      | addrInUse =>
          rw [hb] at h
          exact ih _ _ h
      | ok =>
          rw [hb] at h
          cases hb2 : bind ((rng i &&& 65534) + 1) with
          | otherErr => rw [hb2] at h; simp at h
          | addrInUse =>
              rw [hb2] at h
              exact ih _ _ h
          | ok =>
              rw [hb2] at h
              simp only [ForIpResult.ok.injEq] at h
              subst h
              have hd := hrng i
              have hm : rng i &&& 65534 = 2 * (rng i / 2) :=
                land_65534_eq (by omega)
              refine ⟨?_, ?_, ?_, rfl, hb, hb2⟩ <;>
                simp only [hm] <;> omega

/-- The allocation loop executes at most `fuel` iterations. -/
theorem for_ip_aux_attempts_le (bind : Nat → BindOutcome) (rng : Nat → Nat) :
    ∀ fuel i, (for_ip_aux bind rng i fuel).2 ≤ fuel := by
  intro fuel
  induction fuel with
  | zero => intro i; simp [for_ip_aux]
  | succ n ih =>
      intro i
      simp only [for_ip_aux]
      cases bind (rng i &&& 65534) with
      | otherErr => simp
      | addrInUse => simpa using Nat.succ_le_succ (ih (i + 1))
      | ok =>
          cases bind ((rng i &&& 65534) + 1) with
          | otherErr => simp
          | addrInUse => simpa using Nat.succ_le_succ (ih (i + 1))
          | ok => simp

/-- When every bind fails with `AddrInUse`, the loop exhausts its fuel and
reports `AddrInUse`. -/
theorem for_ip_aux_all_in_use (bind : Nat → BindOutcome) (rng : Nat → Nat)
    (hall : ∀ p, bind p = .addrInUse) :
    ∀ fuel i, for_ip_aux bind rng i fuel = (.errAddrInUse, fuel) := by
  intro fuel
  induction fuel with
  | zero => intro i; simp [for_ip_aux]
  | succ n ih =>
      intro i
      simp only [for_ip_aux, hall, ih]

/-- A bind failure of a kind other than `AddrInUse` on the RTP bind is
returned immediately: the iteration that sees it is the last, whatever fuel
remains. -/
theorem for_ip_aux_other_immediate (bind : Nat → BindOutcome)
    (rng : Nat → Nat) (i fuel : Nat)
    (h : bind (rng i &&& 65534) = .otherErr) :
    for_ip_aux bind rng i (fuel + 1) = (.errOther, 1) := by
  simp only [for_ip_aux, h]

/-- A bind failure of a kind other than `AddrInUse` on the RTCP bind (after
a successful RTP bind of the even port) is likewise returned immediately,
whatever fuel remains. -/
theorem for_ip_aux_rtcp_other_immediate (bind : Nat → BindOutcome)
    (rng : Nat → Nat) (i fuel : Nat)
    (hrtp : bind (rng i &&& 65534) = .ok)
    (hrtcp : bind ((rng i &&& 65534) + 1) = .otherErr) :
    for_ip_aux bind rng i (fuel + 1) = (.errOther, 1) := by
  simp only [for_ip_aux, hrtp, hrtcp]

/-- A successful push preserves the construction-time parameters of the
depacketizer (only `pending` changes). -/
theorem push_ok_preserves {d : Depacketizer} {pkt : Packet}
    {d' : Depacketizer} (h : d.push pkt = .value (.ok d')) :
    d'.clock_rate = d.clock_rate ∧
    d'.bits_per_sample = d.bits_per_sample := by
  unfold Depacketizer.push at h
  split at h
  · simp at h
  · cases hf : d.frame_length pkt.payload.length with
    | panicked => rw [hf] at h; simp at h
    | value o =>
        rw [hf] at h
        cases o with
        | none => simp at h
        | some fl =>
            simp only [Panics.value.injEq, Except.ok.injEq] at h
            subst h
            exact ⟨rfl, rfl⟩

/-- One depacketizer operation does not change the construction-time
parameters. -/
theorem applyOp_preserves (d : Depacketizer) (op : DepacketizerOp) :
    (d.applyOp op).clock_rate = d.clock_rate ∧
    (d.applyOp op).bits_per_sample = d.bits_per_sample := by
  cases op with
  | pull => exact ⟨rfl, rfl⟩
  | push pkt =>
      simp only [Depacketizer.applyOp]
      cases hp : d.push pkt with
      | panicked => exact ⟨rfl, rfl⟩
      | value r =>
          cases r with
          | error e => exact ⟨rfl, rfl⟩
          | ok d' => exact push_ok_preserves hp

/-- A whole operation sequence does not change the clock rate. -/
theorem applyOps_clock_rate (ops : List DepacketizerOp) (d : Depacketizer) :
    (d.applyOps ops).clock_rate = d.clock_rate := by
  induction ops generalizing d with
  | nil => rfl
  | cons op rest ih =>
      unfold Depacketizer.applyOps at *
      simp only [List.foldl_cons]
      rw [ih]
      exact (applyOp_preserves d op).1

/-! Claim theorems. -/

/-- C1 (amended): for a fixed-size audio depacketizer with bits-per-sample
`B > 0`, no pending item, and a packet whose payload length `L` satisfies
`1 ≤ L < 65535`, push succeeds if and only if `8*L mod B = 0`, and on
success the pending audio frame's `frame_length` is `8*L / B`. (The claim
as stated fails for `L = 0`: `8*0 mod B = 0`, yet push rejects the empty
payload because the frame length would be zero and `NonZeroU32::new(0)` is
`None`.) -/
theorem C1_push_frame_length (d : Depacketizer) (pkt : Packet)
    (hB : 0 < d.bits_per_sample) (hL0 : 0 < pkt.payload.length)
    (hL : pkt.payload.length < 65535) (hpend : d.pending = none) :
    ((∃ d', d.push pkt = .value (.ok d')) ↔
      (8 * pkt.payload.length) % d.bits_per_sample = 0) ∧
    ∀ d', d.push pkt = .value (.ok d') →
      ∃ fr, d'.pending = some fr ∧
        fr.frame_length = 8 * pkt.payload.length / d.bits_per_sample := by
  have hnotsome : d.pending.isSome = false := by rw [hpend]; rfl
  have hfl : d.frame_length pkt.payload.length =
      if pkt.payload.length * 8 % d.bits_per_sample ≠ 0 then .value none
      else .value (NonZeroU32.new (pkt.payload.length * 8 /
        d.bits_per_sample)) := by
    unfold Depacketizer.frame_length
    rw [if_pos hL, if_neg (by omega)]
  by_cases h8 : pkt.payload.length * 8 % d.bits_per_sample = 0
  · have hq : pkt.payload.length * 8 / d.bits_per_sample ≠ 0 := by
      intro h0
      have hdm := Nat.div_add_mod (pkt.payload.length * 8) d.bits_per_sample
      rw [h0, h8] at hdm
      omega
    have hnew : NonZeroU32.new (pkt.payload.length * 8 /
        d.bits_per_sample) = some (pkt.payload.length * 8 /
        d.bits_per_sample) := by
      unfold NonZeroU32.new
      rw [if_neg hq]
    have hpush : d.push pkt = .value (.ok { d with pending := some (mkFrame pkt (pkt.payload.length * 8 / d.bits_per_sample)) }) := by
      unfold Depacketizer.push
      rw [hnotsome, hfl, if_neg (not_not_intro h8), hnew]
      rfl
    constructor
    · constructor
      · intro _
        simpa [Nat.mul_comm] using h8
      · intro _
        exact ⟨_, hpush⟩
    · intro d' hd'
      rw [hpush] at hd'
      simp only [Panics.value.injEq, Except.ok.injEq] at hd'
      subst hd'
      refine ⟨mkFrame pkt (pkt.payload.length * 8 / d.bits_per_sample),
        rfl, ?_⟩
      show pkt.payload.length * 8 / d.bits_per_sample =
        8 * pkt.payload.length / d.bits_per_sample
      rw [Nat.mul_comm]
  · have hpush : d.push pkt = .value (.error ("invalid length " ++
        toString pkt.payload.length ++ " for payload of " ++
        toString d.bits_per_sample ++ "-bit audio samples")) := by
      unfold Depacketizer.push
      rw [hnotsome, hfl, if_pos h8]
      rfl
    constructor
    · constructor
      · intro ⟨d', hd'⟩
        rw [hpush] at hd'
        simp at hd'
      · intro h
        rw [Nat.mul_comm] at h
        exact absurd h h8
    · intro d' hd'
      rw [hpush] at hd'
      simp at hd'

/-- C1 counterexample: with 16-bit audio and the empty payload, `8*0 mod 16
is 0` and yet push does not succeed (it returns the descriptive error),
refuting the claimed equivalence at `L = 0`. -/
theorem C1_counterexample :
    (8 * pktEmpty.payload.length) %
      (Depacketizer.new 8000 16).bits_per_sample = 0 ∧
    pushOk ((Depacketizer.new 8000 16).push pktEmpty) = false := by
  exact ⟨rfl, rfl⟩

/-- C1 witness: pushing the 320-byte payload into a 16-bit depacketizer
succeeds and pends a frame of length `8*320/16 = 160` sample ticks. -/
theorem C1_witness :
    ∃ fr, d320.pending = some fr ∧
      fr.frame_length = 8 * pkt320.payload.length /
        (Depacketizer.new 16000 16).bits_per_sample :=
  (C1_push_frame_length (Depacketizer.new 16000 16) pkt320 (by decide)
    (by simp only [pkt320, mkPacket, List.length_replicate]; norm_num)
    (by simp only [pkt320, mkPacket, List.length_replicate]; norm_num)
    rfl).2 d320 (by rfl)

/-- C4 (amended): a push whose payload is 65535 bytes or longer panics on
the `assert!(payload_len < u16::MAX)` in `frame_length`; it does not return
a descriptive error value to the caller. -/
theorem C4_oversized_payload_panics (d : Depacketizer) (pkt : Packet)
    (hL : 65535 ≤ pkt.payload.length) :
    d.push pkt = .panicked := by
  have hf : d.frame_length pkt.payload.length = .panicked := by
    unfold Depacketizer.frame_length
    rw [if_neg (by omega)]
  unfold Depacketizer.push
  rw [hf]
  split <;> rfl

/-- C4 counterexample: at a 65535-byte payload the push neither returns a
descriptive error value (as the claim states) nor succeeds: it panics. -/
theorem C4_counterexample :
    pushErrValue ((Depacketizer.new 16000 16).push pkt65535) = false ∧
    pushOk ((Depacketizer.new 16000 16).push pkt65535) = false := by
  have hlen : pkt65535.payload.length = 65535 := by
    simp only [pkt65535, mkPacket, List.length_replicate]
  have hf : (Depacketizer.new 16000 16).frame_length
      pkt65535.payload.length = .panicked := by
    rw [hlen]
    rfl
  have hp : (Depacketizer.new 16000 16).push pkt65535 = .panicked := by
    unfold Depacketizer.push
    rw [hf]
    rfl
  rw [hp]
  exact ⟨rfl, rfl⟩

/-- C4 witness: the amended theorem applied at the concrete 65535-byte
packet. -/
theorem C4_witness : (Depacketizer.new 16000 16).push pkt65535 = .panicked :=
  C4_oversized_payload_panics (Depacketizer.new 16000 16) pkt65535
    (by simp only [pkt65535, mkPacket, List.length_replicate]; norm_num)

/-- C5: after a successful push into an empty depacketizer, one pull yields
exactly one `CodecItem::AudioFrame` carrying the packet's payload verbatim
together with its timestamp, loss, stream id and packet context; a second
pull with no intervening push yields nothing. -/
theorem C5_pull_one_frame (d : Depacketizer) (pkt : Packet)
    (d' : Depacketizer) (hpend : d.pending = none)
    (hpush : d.push pkt = .value (.ok d')) :
    ∃ fl, (d'.pull).1 = some (.AudioFrame (mkFrame pkt fl)) ∧
      (((d'.pull).2).pull).1 = none := by
  have hnotsome : d.pending.isSome = false := by rw [hpend]; rfl
  unfold Depacketizer.push at hpush
  rw [hnotsome] at hpush
  simp only [Bool.false_eq_true, if_false] at hpush
  cases hf : d.frame_length pkt.payload.length with
  | panicked => rw [hf] at hpush; simp at hpush
  | value o =>
      rw [hf] at hpush
      cases o with
      | none => simp at hpush
      | some fl =>
          simp only [Panics.value.injEq, Except.ok.injEq] at hpush
          subst hpush
          exact ⟨fl, rfl, rfl⟩

/-- C5 witness: pushing a two-byte payload of 8-bit audio and pulling twice
returns the frame once, then nothing. -/
theorem C5_witness :
    ∃ fl, ((dTwo).pull).1 = some (.AudioFrame (mkFrame pktTwo fl)) ∧
      ((((dTwo).pull).2).pull).1 = none :=
  C5_pull_one_frame (Depacketizer.new 8000 8) pktTwo dTwo rfl (by rfl)

/-- C10: the fixed-size audio depacketizer reports parameters immediately
after construction, with the construction-time clock rate and a variable
(`None`) frame length, and the reported parameters are unchanged by any
sequence of push and pull operations. -/
theorem C10_parameters_stable (cr bps : Nat) (ops : List DepacketizerOp) :
    (Depacketizer.new cr bps).parameters =
      some (.Audio { rfc6381_codec := none, frame_length := none,
                     clock_rate := cr, extra_data := [],
                     sample_entry := none }) ∧
    ((Depacketizer.new cr bps).applyOps ops).parameters =
      (Depacketizer.new cr bps).parameters := by
  refine ⟨rfl, ?_⟩
  unfold Depacketizer.parameters
  rw [applyOps_clock_rate]

/-- C2: whenever the clock rate is nonzero and the timestamp is at or past
the stream start, `Timestamp::new` succeeds, `elapsed()` is
`timestamp - start`, and `elapsed_secs()` (NPT, with `f64` division read as
exact division) is `(timestamp - start) / clock_rate`. -/
theorem C2_new_elapsed (ts : Int) (cr st : Nat)
    (hts2 : ts ≤ i64max) (_hcr : 0 < cr) (hst : st < 2 ^ 32)
    (hge : (st : Int) ≤ ts) :
    ∃ t, Timestamp.new ts cr st = some t ∧
      t.elapsed = ts - (st : Int) ∧
      t.elapsed_secs = ((ts - (st : Int) : Int) : ℚ) / (cr : ℚ) := by
  have hmin : (0 : Int) ≤ ts - (st : Int) := by omega
  have hsub : checked_sub ts ((st : Int)) = some (ts - (st : Int)) := by
    unfold checked_sub
    rw [if_pos]
    constructor
    · have : i64min < 0 := by norm_num [i64min]
      omega
    · omega
  refine ⟨⟨ts, cr, st⟩, ?_, rfl, rfl⟩
  unfold Timestamp.new
  rw [hsub]
  rfl

/-- C2 witness: the theorem at `timestamp = 320100`, `clock_rate = 16000`,
`start = 320000`. -/
theorem C2_witness :
    ∃ t, Timestamp.new 320100 16000 320000 = some t ∧
      t.elapsed = 320100 - ((320000 : Nat) : Int) ∧
      t.elapsed_secs = ((320100 - ((320000 : Nat) : Int) : Int) : ℚ) /
        ((16000 : Nat) : ℚ) :=
  C2_new_elapsed 320100 16000 320000 (by norm_num [i64max]) (by norm_num)
    (by norm_num) (by norm_num)

/-- C6: every `Timestamp` produced by `new` satisfies the invariants
(nonzero `u32` clock rate, `u32` start, `i64` timestamp, no underflow of
`timestamp - start`), and `try_add` preserves clock rate and start, adds
exactly `delta`, keeps the invariant, and returns `None` precisely when the
`i64` addition would overflow. -/
theorem C6_timestamp_invariants :
    (∀ ts cr st t, i64min ≤ ts → ts ≤ i64max → 0 < cr → cr < 2 ^ 32 →
      st < 2 ^ 32 → Timestamp.new ts cr st = some t → t.wf) ∧
    (∀ (t : Timestamp) (delta : Nat), t.wf → delta < 2 ^ 32 →
      (∀ t', t.try_add delta = some t' →
        t'.clock_rate = t.clock_rate ∧ t'.start = t.start ∧
        t'.timestamp = t.timestamp + (delta : Int) ∧ t'.wf) ∧
      (t.try_add delta = none ↔
        i64max < t.timestamp + (delta : Int))) := by
  constructor
  · intro ts cr st t h1 h2 h3 h4 h5 hnew
    unfold Timestamp.new checked_sub at hnew
    split at hnew
    · simp only [Option.map_some', Option.some.injEq] at hnew
      subst hnew
      rename_i hcond
      exact ⟨h3, h4, h5, h1, h2, hcond.1⟩
    · simp at hnew
  · intro t delta hwf hdelta
    have hdnn : (0 : Int) ≤ (delta : Int) := Int.natCast_nonneg delta
    constructor
    · intro t' hadd
      unfold Timestamp.try_add checked_add at hadd
      split at hadd
      · simp only [Option.map_some', Option.some.injEq] at hadd
        subst hadd
        rename_i hcond
        refine ⟨rfl, rfl, rfl, hwf.1, hwf.2.1, hwf.2.2.1, hcond.1,
          hcond.2, ?_⟩
        show i64min ≤ (t.timestamp + (delta : Int)) - (t.start : Int)
        have := hwf.2.2.2.2.2
        omega
      · simp at hadd
    · unfold Timestamp.try_add checked_add
      split
      · rename_i hcond
        simp only [Option.map_some']
        constructor
        · intro h
          exact absurd h (by simp)
        · intro h
          exact absurd hcond.2 (by omega)
      · rename_i hcond
        simp only [Option.map_none']
        constructor
        · intro _
          have hmin : i64min ≤ t.timestamp + (delta : Int) := by
            have := hwf.2.2.2.1
            omega
          by_contra hle
          exact hcond ⟨hmin, by omega⟩
        · intro _
          trivial

/-- C6 witness: the `try_add` part of the theorem at the concrete timestamp
`(100, 90000, 50)` with `delta = 10`. -/
theorem C6_witness :
    (Timestamp.mk 110 90000 50).clock_rate =
      (Timestamp.mk 100 90000 50).clock_rate ∧
    (Timestamp.mk 110 90000 50).start = (Timestamp.mk 100 90000 50).start ∧
    (Timestamp.mk 110 90000 50).timestamp =
      (Timestamp.mk 100 90000 50).timestamp + ((10 : Nat) : Int) ∧
    (Timestamp.mk 110 90000 50).wf :=
  ((C6_timestamp_invariants.2 (Timestamp.mk 100 90000 50) 10
    (by constructor <;> norm_num [i64min, i64max])
    (by norm_num)).1) (Timestamp.mk 110 90000 50) (by decide)

/-- C9: `Timestamp::new` does not require `timestamp ≥ start`: it returns
`Some` exactly when the `i64` subtraction `timestamp - start` does not
underflow, even for `timestamp < start`, and in that case `elapsed()` (and
hence NPT) is negative. -/
theorem C9_new_allows_negative (ts : Int) (cr st : Nat)
    (hts2 : ts ≤ i64max) (hst : st < 2 ^ 32) :
    (Timestamp.new ts cr st = none ↔ ts - (st : Int) < i64min) ∧
    (i64min ≤ ts - (st : Int) →
      ∃ t, Timestamp.new ts cr st = some t ∧ t.elapsed = ts - (st : Int)) ∧
    (∀ t, Timestamp.new ts cr st = some t → ts < (st : Int) →
      t.elapsed < 0) := by
  have hup : ts - (st : Int) ≤ i64max := by
    have := Int.natCast_nonneg st
    omega
  refine ⟨?_, ?_, ?_⟩
  · unfold Timestamp.new checked_sub
    split
    · rename_i hcond
      simp only [Option.map_some']
      constructor
      · intro h
        exact absurd h (by simp)
      · intro h
        exact absurd hcond.1 (by omega)
    · rename_i hcond
      simp only [Option.map_none']
      constructor
      · intro _
        by_contra hge
        exact hcond ⟨by omega, hup⟩
      · intro _
        trivial
  · intro hmin
    refine ⟨⟨ts, cr, st⟩, ?_, rfl⟩
    unfold Timestamp.new checked_sub
    rw [if_pos ⟨hmin, hup⟩]
    rfl
  · intro t hnew hlt
    unfold Timestamp.new checked_sub at hnew
    split at hnew
    · simp only [Option.map_some', Option.some.injEq] at hnew
      subst hnew
      show ts - (st : Int) < 0
      omega
    · simp at hnew

/-- C9 witness: `new` succeeds at `timestamp = 5 < start = 10` and the
resulting elapsed time is negative. -/
theorem C9_witness : (Timestamp.mk 5 90000 10).elapsed < 0 :=
  (C9_new_allows_negative 5 90000 10 (by norm_num [i64max])
    (by norm_num)).2.2 (Timestamp.mk 5 90000 10) (by decide) (by decide)

/-- C3: every successfully allocated UDP pair has an even RTP port drawn
from [5000, 65000) and its RTCP socket bound to exactly the RTP port plus
one; success implies both binds succeeded, so the allocation never returns
with only one of the two sockets bound. -/
theorem C3_udp_pair_invariants (bind : Nat → BindOutcome) (rng : Nat → Nat)
    (hrng : ∀ i, 5000 ≤ rng i ∧ rng i < 65000) (p : UdpPairPorts)
    (h : (UdpPair.for_ip bind rng).1 = .ok p) :
    p.rtp_port % 2 = 0 ∧ 5000 ≤ p.rtp_port ∧ p.rtp_port < 65000 ∧
    p.rtcp_port = p.rtp_port + 1 ∧
    bind p.rtp_port = .ok ∧ bind p.rtcp_port = .ok :=
  for_ip_aux_ok bind rng hrng 10 0 p h

/-- C3 witness: with every port free and the generator drawing 6000, the
allocation returns the pair (6000, 6001), which satisfies the invariants. -/
theorem C3_witness :
    (⟨6000, 6001⟩ : UdpPairPorts).rtp_port % 2 = 0 ∧
    5000 ≤ (⟨6000, 6001⟩ : UdpPairPorts).rtp_port ∧
    (⟨6000, 6001⟩ : UdpPairPorts).rtp_port < 65000 ∧
    (⟨6000, 6001⟩ : UdpPairPorts).rtcp_port =
      (⟨6000, 6001⟩ : UdpPairPorts).rtp_port + 1 ∧
    (fun _ => BindOutcome.ok) (⟨6000, 6001⟩ : UdpPairPorts).rtp_port =
      .ok ∧
    (fun _ => BindOutcome.ok) (⟨6000, 6001⟩ : UdpPairPorts).rtcp_port =
      .ok :=
  C3_udp_pair_invariants (fun _ => .ok) (fun _ => 6000)
    (fun _ => ⟨by norm_num, by norm_num⟩) ⟨6000, 6001⟩ (by decide)

/-- C7: `UdpPair::for_ip` makes at most `MAX_TRIES = 10` attempts; if every
bind fails with `AddrInUse` it returns an `AddrInUse` error after exactly 10
attempts; and a bind failure of any other kind — whether on the RTP bind or
on the RTCP bind at `rtp_port + 1` after the RTP bind succeeded — ends the
loop at the attempt that saw it, whatever fuel remains. -/
theorem C7_retry_policy (bind : Nat → BindOutcome) (rng : Nat → Nat) :
    (UdpPair.for_ip bind rng).2 ≤ 10 ∧
    ((∀ p, bind p = .addrInUse) →
      UdpPair.for_ip bind rng = (.errAddrInUse, 10)) ∧
    (∀ i fuel, bind (rng i &&& 65534) = .otherErr →
      for_ip_aux bind rng i (fuel + 1) = (.errOther, 1)) ∧
    (∀ i fuel, bind (rng i &&& 65534) = .ok →
      bind ((rng i &&& 65534) + 1) = .otherErr →
      for_ip_aux bind rng i (fuel + 1) = (.errOther, 1)) := by
  refine ⟨for_ip_aux_attempts_le bind rng 10 0, ?_, ?_, ?_⟩
  · intro hall
    exact for_ip_aux_all_in_use bind rng hall 10 0
  · intro i fuel h
    exact for_ip_aux_other_immediate bind rng i fuel h
  · intro i fuel hrtp hrtcp
    exact for_ip_aux_rtcp_other_immediate bind rng i fuel hrtp hrtcp

/-- C7 witness: with every bind failing `AddrInUse`, the allocation returns
the `AddrInUse` error after exactly 10 attempts. -/
theorem C7_witness :
    UdpPair.for_ip (fun _ => BindOutcome.addrInUse) (fun _ => 5000) =
      (.errAddrInUse, 10) :=
  (C7_retry_policy (fun _ => .addrInUse) (fun _ => 5000)).2.1
    (fun _ => rfl)

/-- C8: when the example CLI's inner command fails, the process prints the
full error chain with successive causes separated by the string
`caused by: ` (each on a new line) and exits with status 1; on success it
exits with status 0. -/
theorem C8_cli_exit_codes (chain : List String) (e c : String) :
    (cli_main (.error chain)).exit_code = 1 ∧
    (cli_main (.ok ())).exit_code = 0 ∧
    (cli_main (.error chain)).stderr =
      some ("Fatal: " ++ String.intercalate "\ncaused by: " chain) ∧
    (cli_main (.error [e, c])).stderr =
      some ("Fatal: " ++ (e ++ "\ncaused by: " ++ c)) := by
  refine ⟨rfl, rfl, rfl, ?_⟩
  show some ("Fatal: " ++ String.intercalate "\ncaused by: " [e, c]) = _
  rfl

end Retina
